import Mathlib

/-!
Verification development for the `cosmology-lcd-fork` oracle-feeder repository.

The repository ships one source file, `src/rest.ts` (the `LCDClient` HTTP
wrapper), together with a README describing the oracle-feeder core
(VoteManager, FeeEstimator, VoteAggregator).  The `LCDClient` definitions
below are a shallow embedding of `src/rest.ts`; the oracle-feeder core is
not shipped in this fork, so those components are modelled from the
specification text, each marked `Modelled from the spec:` in its doc
comment.

Conventions of the embedding:
* JavaScript strings are `List Char` where character-level reasoning is
  needed (endpoint normalisation) and Lean `String` elsewhere.
* A possibly-absent / falsy JavaScript value is an `Option`.
* A `Promise` settles either to a resolved value or to a rejection value;
  rejection values are modelled by `JSReject`, covering both a thrown
  error object and a plain rejection string.
* JavaScript numbers that the claims depend on are `ℚ` (no floating-point
  rounding is involved in any claim: the quantities are millisecond counts
  and gas amounts).  `NaN` is modelled as `Option.none`.
-/

/-! ## Shallow embedding of `src/rest.ts` (`LCDClient`) -/

/-- A JavaScript rejection value as used by `LCDClient.get`/`post`:
either the thrown error object forwarded by `reject(e)` (payload type `ε`)
or a plain string as in `reject('no response data')`. -/
inductive JSReject (ε : Type) where
  | str (s : String)
  | err (e : ε)
  deriving DecidableEq, Repr

/-- The settled state of the promise returned by `LCDClient.get`/`post`. -/
inductive PromiseResult (ε α : Type) where
  | resolved (value : α)
  | rejected (value : JSReject ε)
  deriving DecidableEq, Repr

/-- An axios response object as observed by `rest.ts`: only its `data`
field is inspected.  `data = none` models an absent/falsy `data` field. -/
structure AxiosResponse (α : Type) where
  data : Option α
  deriving DecidableEq, Repr

/-- Outcome of one underlying `this.instance.get/post(...)` call:
either it throws (the promise it returns rejects) with an error `e`, or it
returns a response value, where `none` models a falsy response. -/
inductive HttpCall (ε α : Type) where
  | throws (e : ε)
  | returns (response : Option (AxiosResponse α))
  deriving DecidableEq, Repr

/-- The request options object passed by a caller of `get`/`post`:
an optional `timeout` property plus arbitrary further string-keyed
properties (kept abstract with value type `V`). -/
structure ReqOpts (V : Type) where
  timeout : Option ℚ
  extra : String → Option V

/-- The axios request configuration built inside `get`/`post`:
`{ timeout: LCDClient.getTimeout(), ...opts }`.  After the spread, the
`timeout` key holds the caller's value when the caller supplied one and
the environment-derived default otherwise, and every other key holds
exactly what `opts` holds. -/
structure ReqConfig (V : Type) where
  timeout : ℚ
  extra : String → Option V

/-- JavaScript `String.prototype.endsWith` on `List Char` strings. -/
def jsEndsWith (s pat : List Char) : Bool :=
  pat.isSuffixOf s

/-- ECMA-262 string trimming (both ends, whitespace) on `List Char`
strings, as performed by `ToNumber` on a string argument. -/
def jsTrim (s : List Char) : List Char :=
  ((s.dropWhile Char.isWhitespace).reverse.dropWhile Char.isWhitespace).reverse

/-- JavaScript `Number(x)` applied to `process.env["AXIOS_TIMEOUT"]`
(`x : Option (List Char)`, `none` = variable unset).  Per ECMA-262
ToNumber: `Number(undefined) = NaN`; for a string, leading/trailing
whitespace is trimmed, the empty remainder converts to `0`, and a
non-empty remainder is parsed by the numeric-literal grammar, abstracted
here as the parameter `parseNum` (`none` = `NaN`). -/
def jsNumberOfEnv (parseNum : List Char → Option ℚ) (x : Option (List Char)) : Option ℚ :=
  match x with
  | none => none
  | some s => if jsTrim s = [] then some 0 else parseNum (jsTrim s)

/-- `LCDClient.getTimeout()`: `Number(process.env["AXIOS_TIMEOUT"])`,
falling back to `10000` when that is `NaN`. -/
def LCDClient.getTimeout (parseNum : List Char → Option ℚ) (env : Option (List Char)) : ℚ :=
  match jsNumberOfEnv parseNum env with
  | none => 10000
  | some t => t

/-- The request configuration `{ timeout: LCDClient.getTimeout(), ...opts }`
built inside `get`/`post`: the object spread is right-biased, so a
`timeout` supplied in `opts` wins over the default, and every key other
than `timeout` comes from `opts` alone (the defaults name no other key). -/
def LCDClient.requestConfig (defaultTimeout : ℚ) (opts : ReqOpts V) : ReqConfig V where
  timeout := match opts.timeout with
    | some t => t
    | none => defaultTimeout
  extra := opts.extra

/-- The `LCDClient` instance state: the stored `restEndpoint` field and the
behaviour of the private axios instance for `get` and for `post` requests
(a function from endpoint and built request configuration to the network
outcome; for `post` also the body, of type `β`). -/
structure LCDClient (ε α β V : Type) where
  restEndpoint : List Char
  axiosGet : String → ReqConfig V → HttpCall ε α
  axiosPost : String → β → ReqConfig V → HttpCall ε α

/-- The `LCDClient` constructor: stores `restEndpoint` as-is when it already
ends with `'/'`, otherwise appends a single `'/'`. -/
def LCDClient.make (restEndpoint : List Char)
    (axiosGet : String → ReqConfig V → HttpCall ε α)
    (axiosPost : String → β → ReqConfig V → HttpCall ε α) : LCDClient ε α β V where
  restEndpoint := if jsEndsWith restEndpoint ['/'] then restEndpoint else restEndpoint ++ ['/']
  axiosGet := axiosGet
  axiosPost := axiosPost

/-- The shared promise-executor body of `get` and `post`: await the
underlying call; on a thrown error reject with it; otherwise resolve with
`response.data` if `response && response.data` is truthy and reject with
the string `'no response data'` if not.  The executor catches every
outcome, so the method never throws synchronously: this function is total. -/
def LCDClient.settle (call : HttpCall ε α) : PromiseResult ε α :=
  match call with
  | .throws e => .rejected (.err e)
  | .returns response =>
    match response with
    | some r =>
      match r.data with
      | some d => .resolved d
      | none => .rejected (.str "no response data")
    | none => .rejected (.str "no response data")

/-- `LCDClient.get(endpoint, opts)`.  `parseNum`/`env` are the process
state read by the static `getTimeout` at call time.  The method mutates
nothing: the client is returned unchanged alongside the settled promise. -/
def LCDClient.get (c : LCDClient ε α β V) (parseNum : List Char → Option ℚ)
    (env : Option (List Char)) (endpoint : String) (opts : ReqOpts V) :
    PromiseResult ε α × LCDClient ε α β V :=
  (LCDClient.settle
    (c.axiosGet endpoint (LCDClient.requestConfig (LCDClient.getTimeout parseNum env) opts)), c)

/-- `LCDClient.post(endpoint, body, opts)`, analogous to `get`. -/
def LCDClient.post (c : LCDClient ε α β V) (parseNum : List Char → Option ℚ)
    (env : Option (List Char)) (endpoint : String) (body : β) (opts : ReqOpts V) :
    PromiseResult ε α × LCDClient ε α β V :=
  (LCDClient.settle
    (c.axiosPost endpoint body
      (LCDClient.requestConfig (LCDClient.getTimeout parseNum env) opts)), c)

/-! ## Oracle-feeder core, modelled from the spec

The fork ships only `rest.ts`; the FeeEstimator, VoteManager timing and
submission logic, and VoteAggregator described by the spec and the README
are not under `src/`.  They are modelled here from the specification text. -/

/-- A fully-specified fee object: total fee amount and gas limit.
Gas is an integer count; the amount is `gas × gasPrice`. -/
structure StdFee where
  amount : ℚ
  gas : ℤ
  deriving DecidableEq, Repr

/-- The three mutually exclusive fee policies of the configuration surface:
a manual fee object, the string `"auto"`, or a numeric multiplier. -/
inductive FeePolicy where
  | manual (fee : StdFee)
  | auto
  | multiplier (m : ℚ)
  deriving DecidableEq, Repr

/-- Modelled from the spec: the fixed constant multiplier used by the
`"auto"` fee policy ("the estimated gas is multiplied by a constant value
(`1.3`)"). -/
def autoMultiplier : ℚ := 13 / 10

/-- Modelled from the spec: gas used for fee calculation after simulation,
`ceil(G × m)` for simulated gas `G` and multiplier `m`. -/
def gasFromSimulation (G : ℕ) (m : ℚ) : ℤ :=
  ⌈(G : ℚ) * m⌉

/-- Modelled from the spec: the fee built from a gas value and the
configured gas price, `fee.amount = fee.gas × gasPrice`. -/
def feeOfGas (gas : ℤ) (gasPrice : ℚ) : StdFee where
  amount := (gas : ℚ) * gasPrice
  gas := gas

/-- Modelled from the spec: `FeeEstimator.estimateFee(policy, txBody)`.
The missing FeeEstimator component is modelled with the transaction
simulation call abstracted as `simulate` (which may fail, aborting the
submission).  The second component of the result counts how many
simulation (network) calls were performed:
* manual: the configured fee object is returned verbatim, no simulation;
* multiplier `m`: simulate, then gas `= ceil(G × m)`, amount `= gas × gasPrice`;
* `"auto"`: identical to multiplier with the fixed constant `1.3`. -/
def estimateFee {TxBody SimError : Type} (policy : FeePolicy)
    (simulate : TxBody → Except SimError ℕ) (gasPrice : ℚ) (txBody : TxBody) :
    Except SimError StdFee × ℕ :=
  match policy with
  | .manual fee => (.ok fee, 0)
  | .multiplier m =>
    (match simulate txBody with
      | .ok G => .ok (feeOfGas (gasFromSimulation G m) gasPrice)
      | .error e => .error e, 1)
  | .auto =>
    (match simulate txBody with
      | .ok G => .ok (feeOfGas (gasFromSimulation G autoMultiplier) gasPrice)
      | .error e => .error e, 1)

/-- Modelled from the spec: the deadlines the VoteManager computes on an
interval-end event received while idle. -/
structure IntervalDeadlines where
  preparationBudget : ℤ
  preparationDeadline : ℤ
  submissionDeadline : ℤ
  deriving DecidableEq, Repr

/-- Modelled from the spec: `preparationBudget = chainBlockCommitTimeout −
voteReservedTime`, `preparationDeadline = now + preparationBudget`,
`submissionDeadline = preparationDeadline + voteReservedTime` (all in
milliseconds). -/
def computeDeadlines (now chainBlockCommitTimeout voteReservedTime : ℤ) :
    IntervalDeadlines :=
  let preparationBudget := chainBlockCommitTimeout - voteReservedTime
  let preparationDeadline := now + preparationBudget
  let submissionDeadline := preparationDeadline + voteReservedTime
  ⟨preparationBudget, preparationDeadline, submissionDeadline⟩

/-- A namespace vote: namespace string and opaque string payload. -/
structure NamespaceVote where
  ns : String
  payload : String
  deriving DecidableEq, Repr

/-- A module vote: the list of namespace votes one plugin contributes for
one module, in the order the plugin provided them. -/
abbrev ModuleVote := List NamespaceVote

/-- One plugin's output: a mapping from module name to `ModuleVote`,
represented as the plugin's association list of bindings. -/
abbrev ModuleVoteSet := List (String × ModuleVote)

/-- The aggregated vote: the merged module-name → `ModuleVote` mapping,
as an association list with unique keys. -/
abbrev AggregatedVote := List (String × ModuleVote)

/-- Modelled from the spec: assigning one module binding into the
aggregated mapping (JavaScript object-assignment semantics: an existing
key keeps its position and its value is overwritten; a new key is
appended). -/
def assignModule : AggregatedVote → String → ModuleVote → AggregatedVote
  | [], name, v => [(name, v)]
  | p :: rest, name, v =>
    if p.1 = name then (name, v) :: rest else p :: assignModule rest name v

/-- Modelled from the spec: `VoteAggregator.merge` folds the plugins'
`ModuleVoteSet`s in registration order into one aggregated mapping, so a
later plugin's binding for a module name overwrites an earlier plugin's. -/
def VoteAggregator.merge (setsByPlugin : List ModuleVoteSet) : AggregatedVote :=
  setsByPlugin.foldl (fun acc s => s.foldl (fun a p => assignModule a p.1 p.2) acc) []

/-- Lookup of a module name in an aggregated vote. -/
def lookupModule (agg : AggregatedVote) (name : String) : Option ModuleVote :=
  (agg.find? (fun p => p.1 = name)).map Prod.snd

/-- The binding a single `ModuleVoteSet` contributes for a module name:
its last binding for that name, if any (within one plugin's output the
name is unique, so this is simply its binding). -/
def bindingOf (s : ModuleVoteSet) (name : String) : Option ModuleVote :=
  s.foldl (fun r p => if p.1 = name then some p.2 else r) none

/-- The two transaction kinds of the two-phase oracle submission. -/
inductive TxKind where
  | preVote
  | combinedVote
  deriving DecidableEq, Repr

/-- Outcome of one bounded broadcast call. -/
inductive BroadcastOutcome where
  | success
  | failure
  | timedOut
  deriving DecidableEq, Repr

/-- The VoteManager interval states. -/
inductive MgrState where
  | idle
  | preparing
  | collecting
  | submitting
  deriving DecidableEq, Repr

/-- The external outcomes the Submitting phase can encounter: whether fee
estimation (simulation) succeeds for each message, and how each bounded
broadcast ends.  Combined-vote entries are consulted only if the pre-vote
stage got that far. -/
structure SubmitEnv where
  preVoteEstimateOk : Bool
  preVoteBroadcast : BroadcastOutcome
  combinedEstimateOk : Bool
  combinedBroadcast : BroadcastOutcome
  deriving DecidableEq, Repr

/-- What the Submitting phase did for one interval: which messages had a
fee estimated (and were built), which were signed, which were handed to
broadcast, and the state the manager returns to. -/
structure SubmitTrace where
  estimated : List TxKind
  signed : List TxKind
  broadcast : List TxKind
  finalState : MgrState
  deriving DecidableEq, Repr

/-- Modelled from the spec: the Submitting phase of the VoteManager.  If
the aggregated vote is empty, submission is skipped entirely (no
transaction is built) and the manager returns to Idle.  Otherwise the
pre-vote fee is estimated, the pre-vote is signed and broadcast; only if
that broadcast succeeds is the combined-vote estimated, signed and
broadcast.  Any estimation failure or non-success broadcast abandons the
interval; the transition back to Idle is unconditional. -/
def submitPhase (agg : AggregatedVote) (env : SubmitEnv) : SubmitTrace :=
  if agg.isEmpty then ⟨[], [], [], .idle⟩
  else if !env.preVoteEstimateOk then ⟨[.preVote], [], [], .idle⟩
  else
    match env.preVoteBroadcast with
    | .success =>
      if !env.combinedEstimateOk then
        ⟨[.preVote, .combinedVote], [.preVote], [.preVote], .idle⟩
      else
        ⟨[.preVote, .combinedVote], [.preVote, .combinedVote],
          [.preVote, .combinedVote], .idle⟩
    | _ => ⟨[.preVote], [.preVote], [.preVote], .idle⟩

/-- Modelled from the spec: handling an `IntervalEndEvent`.  Received while
idle it starts Preparing with the computed deadlines; received in any
other state it is dropped. -/
def handleIntervalEnd (state : MgrState)
    (now chainBlockCommitTimeout voteReservedTime : ℤ) :
    MgrState × Option IntervalDeadlines :=
  match state with
  | .idle => (.preparing, some (computeDeadlines now chainBlockCommitTimeout voteReservedTime))
  | s => (s, none)


/-- A trivial axios `get` behaviour used to instantiate the client model
on concrete inputs. -/
def unitAxiosGet : String → ReqConfig Unit → HttpCall Unit Unit :=
  fun _ _ => .returns none

/-- A trivial axios `post` behaviour used to instantiate the client model
on concrete inputs. -/
def unitAxiosPost : String → Unit → ReqConfig Unit → HttpCall Unit Unit :=
  fun _ _ _ => .returns none

/-- A concrete client built from the endpoint `"a"`. -/
def sampleClient : LCDClient Unit Unit Unit Unit :=
  LCDClient.make ['a'] unitAxiosGet unitAxiosPost

/-- Trivial request options used to instantiate the client model. -/
def emptyOpts : ReqOpts Unit :=
  ⟨none, fun _ => none⟩

/-! ## Helper lemmas about the aggregator -/

theorem lookupModule_assignModule_self (acc : AggregatedVote) (name : String)
    (v : ModuleVote) : lookupModule (assignModule acc name v) name = some v := by
  induction acc with
  | nil => simp [assignModule, lookupModule, List.find?]
  | cons p rest ih =>
    by_cases h : p.1 = name
    · simp [assignModule, lookupModule, List.find?, h]
    · simp only [assignModule, if_neg h]
      simpa [lookupModule, List.find?, h] using ih

theorem lookupModule_assignModule_ne (acc : AggregatedVote) (name x : String)
    (v : ModuleVote) (hne : name ≠ x) :
    lookupModule (assignModule acc name v) x = lookupModule acc x := by
  induction acc with
  | nil => simp [assignModule, lookupModule, List.find?, hne]
  | cons p rest ih =>
    by_cases h : p.1 = name
    · simp [assignModule, lookupModule, List.find?, h, hne]
    · simp only [assignModule, if_neg h]
      by_cases hx : p.1 = x
      · simp [lookupModule, List.find?, hx]
      · simpa [lookupModule, List.find?, hx] using ih

theorem bindingOf_foldl_or (s : ModuleVoteSet) (x : String)
    (r : Option ModuleVote) :
    s.foldl (fun r p => if p.1 = x then some p.2 else r) r =
      match bindingOf s x with
      | some v => some v
      | none => r := by
  induction s generalizing r with
  | nil => simp [bindingOf]
  | cons p rest ih =>
    simp only [bindingOf, List.foldl_cons] at *
    rw [ih, ih (if p.1 = x then some p.2 else none)]
    by_cases h : p.1 = x <;> cases hb : bindingOf rest x <;>
      simp [bindingOf, h, hb] at * <;> simp_all

theorem lookupModule_foldl_assign (s : ModuleVoteSet) (acc : AggregatedVote)
    (x : String) :
    lookupModule (s.foldl (fun a p => assignModule a p.1 p.2) acc) x =
      match bindingOf s x with
      | some v => some v
      | none => lookupModule acc x := by
  induction s generalizing acc with
  | nil => simp [bindingOf]
  | cons p rest ih =>
    simp only [List.foldl_cons]
    rw [ih]
    have hrw := bindingOf_foldl_or rest x (if p.1 = x then some p.2 else none)
    simp only [bindingOf, List.foldl_cons] at *
    rw [hrw]
    by_cases h : p.1 = x <;> cases hb : bindingOf rest x <;>
      simp only [bindingOf] at hb <;> simp [h, hb]
    · subst h
      simp [lookupModule_assignModule_self]
    · rw [lookupModule_assignModule_ne _ _ _ _ h]

/-! ## Claim theorems -/

/-- C1: for every endpoint and options argument, `LCDClient.get` (and
likewise `LCDClient.post`) settles to exactly the outcome of the shared
executor `LCDClient.settle` applied to the underlying HTTP call, and that
executor resolves with exactly the response's `data` field when the call
succeeds with a truthy `data`, rejects with the string
`'no response data'` when the response or its `data` field is
absent/falsy, and rejects with the thrown error when the call throws.
`settle` is a total function, so neither method ever throws synchronously. -/
theorem lcd_get_post_resolution (c : LCDClient ε α β V)
    (parseNum : List Char → Option ℚ) (env : Option (List Char))
    (endpoint : String) (body : β) (opts : ReqOpts V) (e : ε) (d : α) :
    (c.get parseNum env endpoint opts).1 =
      LCDClient.settle (c.axiosGet endpoint
        (LCDClient.requestConfig (LCDClient.getTimeout parseNum env) opts)) ∧
    (c.post parseNum env endpoint body opts).1 =
      LCDClient.settle (c.axiosPost endpoint body
        (LCDClient.requestConfig (LCDClient.getTimeout parseNum env) opts)) ∧
    LCDClient.settle (HttpCall.throws e : HttpCall ε α) =
      PromiseResult.rejected (.err e) ∧
    LCDClient.settle (HttpCall.returns (some ⟨some d⟩) : HttpCall ε α) =
      PromiseResult.resolved d ∧
    LCDClient.settle (HttpCall.returns (some ⟨none⟩) : HttpCall ε α) =
      PromiseResult.rejected (.str "no response data") ∧
    LCDClient.settle (HttpCall.returns none : HttpCall ε α) =
      PromiseResult.rejected (.str "no response data") :=
  ⟨rfl, rfl, rfl, rfl, rfl, rfl⟩

theorem jsEndsWith_append_slash (r : List Char) :
    jsEndsWith (r ++ ['/']) ['/'] = true := by
  simp [jsEndsWith, List.isSuffixOf]

/-- C8: after construction, the stored `restEndpoint` always ends with
`'/'`: it equals the input unchanged when the input already ends with
`'/'` and the input with a single `'/'` appended otherwise; construction
from an already-normalised endpoint is the identity, and neither `get`
nor `post` modifies the field. -/
theorem lcd_restEndpoint_normalized (r : List Char)
    (g : String → ReqConfig V → HttpCall ε α)
    (p : String → β → ReqConfig V → HttpCall ε α)
    (c : LCDClient ε α β V) (parseNum : List Char → Option ℚ)
    (env : Option (List Char)) (endpoint : String) (body : β)
    (opts : ReqOpts V) :
    jsEndsWith (LCDClient.make r g p).restEndpoint ['/'] = true ∧
    (jsEndsWith r ['/'] = true → (LCDClient.make r g p).restEndpoint = r) ∧
    (jsEndsWith r ['/'] = false →
      (LCDClient.make r g p).restEndpoint = r ++ ['/']) ∧
    (LCDClient.make (LCDClient.make r g p).restEndpoint g p).restEndpoint =
      (LCDClient.make r g p).restEndpoint ∧
    ((c.get parseNum env endpoint opts).2).restEndpoint = c.restEndpoint ∧
    ((c.post parseNum env endpoint body opts).2).restEndpoint =
      c.restEndpoint := by
  refine ⟨?_, ?_, ?_, ?_, rfl, rfl⟩
  · by_cases h : jsEndsWith r ['/'] <;>
      simp [LCDClient.make, h, jsEndsWith_append_slash]
  · intro h
    simp [LCDClient.make, h]
  · intro h
    simp [LCDClient.make, h]
  · by_cases h : jsEndsWith r ['/'] <;>
      simp [LCDClient.make, h, jsEndsWith_append_slash]

/-- C8 witness: construction from `"a"` appends the slash, construction
from the result is the identity, and the normalised endpoint ends with
`'/'`. -/
theorem lcd_restEndpoint_normalized_w :
    jsEndsWith ['a'] ['/'] = false ∧
    sampleClient.restEndpoint = ['a'] ++ ['/'] ∧
    jsEndsWith sampleClient.restEndpoint ['/'] = true := by
  refine ⟨by decide, ?_, ?_⟩
  · exact (lcd_restEndpoint_normalized ['a'] unitAxiosGet unitAxiosPost
      sampleClient (fun _ => none) none "" () emptyOpts).2.2.1 (by decide)
  · exact (lcd_restEndpoint_normalized ['a'] unitAxiosGet unitAxiosPost
      sampleClient (fun _ => none) none "" () emptyOpts).1

/-- C9: `LCDClient.getTimeout` returns the converted value of the
`AXIOS_TIMEOUT` environment variable whenever that conversion is not
`NaN`, and `10000` otherwise; an unset variable converts to `NaN` and so
yields `10000`, while an empty-string value converts to `0` (not `NaN`)
and so yields `0`. -/
theorem lcd_getTimeout_env (parseNum : List Char → Option ℚ)
    (env : Option (List Char)) :
    LCDClient.getTimeout parseNum env = (jsNumberOfEnv parseNum env).getD 10000 ∧
    jsNumberOfEnv parseNum none = none ∧
    LCDClient.getTimeout parseNum none = 10000 ∧
    jsNumberOfEnv parseNum (some []) = some 0 ∧
    LCDClient.getTimeout parseNum (some []) = 0 := by
  refine ⟨?_, rfl, rfl, rfl, rfl⟩
  cases h : jsNumberOfEnv parseNum env <;> simp [LCDClient.getTimeout, h]

/-- C10: in both `get` and `post` the request configuration maps `timeout`
to the caller-supplied value when `opts` names one and to the
environment-derived default otherwise (the spread of `opts` comes after
the default), every other request setting is exactly what `opts` holds,
and both methods pass precisely this configuration to the underlying
call. -/
theorem lcd_opts_timeout_override (c : LCDClient ε α β V)
    (parseNum : List Char → Option ℚ) (env : Option (List Char))
    (endpoint : String) (body : β) (opts : ReqOpts V) (d : ℚ) :
    (LCDClient.requestConfig (LCDClient.getTimeout parseNum env) opts).timeout =
      opts.timeout.getD (LCDClient.getTimeout parseNum env) ∧
    (LCDClient.requestConfig d opts).extra = opts.extra ∧
    (c.get parseNum env endpoint opts).1 =
      LCDClient.settle (c.axiosGet endpoint
        (LCDClient.requestConfig (LCDClient.getTimeout parseNum env) opts)) ∧
    (c.post parseNum env endpoint body opts).1 =
      LCDClient.settle (c.axiosPost endpoint body
        (LCDClient.requestConfig (LCDClient.getTimeout parseNum env) opts)) := by
  refine ⟨?_, rfl, rfl, rfl⟩
  obtain ⟨t, ex⟩ := opts
  cases t <;> rfl

/-- C2: under a numeric multiplier policy `m`, given simulated gas `G` the
gas used for fee calculation is `ceil(G × m)`; the `"auto"` policy behaves
identically to the multiplier policy with the fixed constant `1.3`
(`13/10`); and in both cases the fee amount is `fee.gas × gasPrice`. -/
theorem estimateFee_multiplier_ceil {TxBody SimError : Type}
    (simulate : TxBody → Except SimError ℕ) (txBody : TxBody) (G : ℕ)
    (m gasPrice : ℚ) (h : simulate txBody = .ok G) :
    estimateFee (.multiplier m) simulate gasPrice txBody =
      (.ok ⟨(⌈(G : ℚ) * m⌉ : ℚ) * gasPrice, ⌈(G : ℚ) * m⌉⟩, 1) ∧
    estimateFee .auto simulate gasPrice txBody =
      estimateFee (.multiplier (13 / 10)) simulate gasPrice txBody ∧
    estimateFee .auto simulate gasPrice txBody =
      (.ok ⟨(⌈(G : ℚ) * (13 / 10)⌉ : ℚ) * gasPrice,
        ⌈(G : ℚ) * (13 / 10)⌉⟩, 1) := by
  refine ⟨?_, ?_, ?_⟩ <;>
    simp [estimateFee, h, feeOfGas, gasFromSimulation, autoMultiplier]

/-- C2 witness: with simulated gas `100`, multiplier `2` and gas price
`3`, the theorem's characterisation holds at a concrete simulator. -/
theorem estimateFee_multiplier_ceil_w :
    (fun _ : Unit => (Except.ok 100 : Except Unit ℕ)) () = .ok 100 ∧
    (estimateFee (.multiplier 2) (fun _ : Unit => (Except.ok 100 : Except Unit ℕ)) 3 () =
      (.ok ⟨(⌈(100 : ℚ) * 2⌉ : ℚ) * 3, ⌈(100 : ℚ) * 2⌉⟩, 1) ∧
    estimateFee .auto (fun _ : Unit => (Except.ok 100 : Except Unit ℕ)) 3 () =
      estimateFee (.multiplier (13 / 10)) (fun _ : Unit => (Except.ok 100 : Except Unit ℕ)) 3 () ∧
    estimateFee .auto (fun _ : Unit => (Except.ok 100 : Except Unit ℕ)) 3 () =
      (.ok ⟨(⌈(100 : ℚ) * (13 / 10)⌉ : ℚ) * 3,
        ⌈(100 : ℚ) * (13 / 10)⌉⟩, 1)) :=
  ⟨rfl, estimateFee_multiplier_ceil (fun _ : Unit => (Except.ok 100 : Except Unit ℕ))
    () 100 2 3 rfl⟩

/-- C3: under the manual fee policy `estimateFee` returns the configured
fee object verbatim with zero simulation calls, and its result does not
depend on the simulator or the gas price at all (no network call is
made). -/
theorem estimateFee_manual_verbatim {TxBody SimError : Type} (fee : StdFee)
    (simulate simulate2 : TxBody → Except SimError ℕ) (gasPrice gasPrice2 : ℚ)
    (txBody : TxBody) :
    estimateFee (.manual fee) simulate gasPrice txBody = (.ok fee, 0) ∧
    estimateFee (.manual fee) simulate gasPrice txBody =
      estimateFee (.manual fee) simulate2 gasPrice2 txBody :=
  ⟨rfl, rfl⟩

/-- C4: an interval-end event received while idle starts Preparing with
`preparationBudget = chainBlockCommitTimeout − voteReservedTime`,
`preparationDeadline = now + preparationBudget` and
`submissionDeadline = preparationDeadline + voteReservedTime`; with
`chainBlockCommitTimeoutMillis = 5000` and
`voteReservedTimeMillis = 3000` the budget is `2000` ms. -/
theorem voteManager_deadline_arithmetic (now cbct vrt : ℤ) :
    handleIntervalEnd .idle now cbct vrt =
      (.preparing, some (computeDeadlines now cbct vrt)) ∧
    (computeDeadlines now cbct vrt).preparationBudget = cbct - vrt ∧
    (computeDeadlines now cbct vrt).preparationDeadline =
      now + (cbct - vrt) ∧
    (computeDeadlines now cbct vrt).submissionDeadline =
      (computeDeadlines now cbct vrt).preparationDeadline + vrt ∧
    (computeDeadlines now 5000 3000).preparationBudget = 2000 := by
  refine ⟨rfl, rfl, rfl, rfl, ?_⟩
  norm_num [computeDeadlines]

/-- C5: when plugin `A` (registered before plugin `B`) and plugin `B` both
produce a binding for module `x`, the merged vote's entry for `x` is
exactly `B`'s contribution (the later plugin in registration order
overwrites the earlier one); and a single plugin's namespace votes for a
module are kept exactly as provided, in order. -/
theorem aggregator_later_plugin_wins (A B : ModuleVoteSet) (x y : String)
    (va vb : ModuleVote) (vs : ModuleVote)
    (ha : bindingOf A x = some va) (hb : bindingOf B x = some vb) :
    lookupModule (VoteAggregator.merge [A, B]) x = some vb ∧
    lookupModule (VoteAggregator.merge [[(y, vs)]]) y = some vs := by
  constructor
  · have := lookupModule_foldl_assign B
      (A.foldl (fun a p => assignModule a p.1 p.2) []) x
    simpa [VoteAggregator.merge, hb] using this
  · simp [VoteAggregator.merge, assignModule, lookupModule, List.find?]

/-- C5 witness: two one-module plugins both producing `"x"`; the merged
entry for `"x"` is the second plugin's namespace-vote list. -/
theorem aggregator_later_plugin_wins_w :
    bindingOf [("x", [⟨"n", "a"⟩])] "x" = some [⟨"n", "a"⟩] ∧
    bindingOf [("x", [⟨"n", "b"⟩])] "x" = some [⟨"n", "b"⟩] ∧
    (lookupModule
        (VoteAggregator.merge [[("x", [⟨"n", "a"⟩])], [("x", [⟨"n", "b"⟩])]])
        "x" = some [⟨"n", "b"⟩] ∧
      lookupModule (VoteAggregator.merge [[("y", [⟨"m", "c"⟩])]]) "y" =
        some [⟨"m", "c"⟩]) := by
  refine ⟨by decide, by decide, ?_⟩
  exact aggregator_later_plugin_wins [("x", [⟨"n", "a"⟩])]
    [("x", [⟨"n", "b"⟩])] "x" "y" [⟨"n", "a"⟩] [⟨"n", "b"⟩] [⟨"m", "c"⟩]
    (by decide) (by decide)

/-- C6: when every plugin contributed nothing, the aggregated vote is
empty, and for an empty aggregated vote the Submitting phase builds,
signs and broadcasts no transaction whatsoever and returns to Idle. -/
theorem submit_skips_empty_vote (sets : List ModuleVoteSet)
    (env env2 : SubmitEnv) (h : ∀ s ∈ sets, s = []) :
    VoteAggregator.merge sets = [] ∧
    submitPhase (VoteAggregator.merge sets) env = ⟨[], [], [], .idle⟩ ∧
    submitPhase [] env2 = ⟨[], [], [], .idle⟩ := by
  have hm : VoteAggregator.merge sets = [] := by
    unfold VoteAggregator.merge
    induction sets with
    | nil => rfl
    | cons s rest ih =>
      have hs : s = [] := h s (by simp)
      subst hs
      simpa using ih (fun t ht => h t (by simp [ht]))
  exact ⟨hm, by rw [hm]; rfl, rfl⟩

/-- C6 witness: two plugins that both contributed nothing lead to an
empty merge and a fully skipped submission. -/
theorem submit_skips_empty_vote_w :
    (∀ s ∈ [([] : ModuleVoteSet), []], s = []) ∧
    (VoteAggregator.merge [[], []] = [] ∧
      submitPhase (VoteAggregator.merge [[], []])
        ⟨true, .success, true, .success⟩ = ⟨[], [], [], .idle⟩ ∧
      submitPhase [] ⟨false, .failure, false, .timedOut⟩ =
        ⟨[], [], [], .idle⟩) := by
  refine ⟨by simp, ?_⟩
  exact submit_skips_empty_vote [[], []] ⟨true, .success, true, .success⟩
    ⟨false, .failure, false, .timedOut⟩ (by simp)

/-- C7: whenever the pre-vote broadcast does not succeed (failure or
timeout), the combined-vote message is never estimated, signed or
broadcast for that interval, and the manager returns to Idle with nothing
pending (no cross-interval retry). -/
theorem combined_vote_gated_on_prevote (agg : AggregatedVote)
    (env : SubmitEnv) (h : env.preVoteBroadcast ≠ .success) :
    TxKind.combinedVote ∉ (submitPhase agg env).estimated ∧
    TxKind.combinedVote ∉ (submitPhase agg env).signed ∧
    TxKind.combinedVote ∉ (submitPhase agg env).broadcast ∧
    (submitPhase agg env).finalState = .idle := by
  obtain ⟨pe, pb, ce, cb⟩ := env
  simp only at h
  by_cases he : agg.isEmpty <;> cases pe <;> cases pb <;>
    simp_all [submitPhase]

/-- C7 witness: a non-empty aggregated vote whose pre-vote broadcast
fails: the combined-vote is never reached. -/
theorem combined_vote_gated_on_prevote_w :
    (SubmitEnv.preVoteBroadcast ⟨true, .failure, true, .success⟩ ≠
      BroadcastOutcome.success) ∧
    (TxKind.combinedVote ∉
      (submitPhase [("x", [])] ⟨true, .failure, true, .success⟩).estimated ∧
    TxKind.combinedVote ∉
      (submitPhase [("x", [])] ⟨true, .failure, true, .success⟩).signed ∧
    TxKind.combinedVote ∉
      (submitPhase [("x", [])] ⟨true, .failure, true, .success⟩).broadcast ∧
    (submitPhase [("x", [])] ⟨true, .failure, true, .success⟩).finalState =
      MgrState.idle) := by
  refine ⟨by decide, ?_⟩
  exact combined_vote_gated_on_prevote [("x", [])]
    ⟨true, .failure, true, .success⟩ (by decide)
